import Mathlib

/-!
Verification of the focus-session tracker (`src/focus/focus.py`) against its
natural-language specification.

The Python program is shallowly embedded: file-backed state becomes explicit
records, `date.today()` becomes an explicit current-date string parameter,
wall-clock `time.time() - start_time` becomes explicit event timestamps
(seconds since session start, as naturals), and the interactive timer loop
of `display_session_ui` becomes a pure function over a scripted list of
timed input events.
-/

namespace Focus

/-- Energy reading appended by the `energy` and `gm` commands:
`{"time": ..., "level": ..., "factors": ...}` (`factors` absent in `gm`). -/
structure EnergyReading where
  time : String
  level : Nat
  factors : Option String
  deriving Repr, DecidableEq

/-- Circadian sub-dict of today's stats, `{}` by default; keys are added by
the `gm` command. -/
structure Circadian where
  wakeTime : Option String := none
  sunlight : Option Bool := none
  hadCaffeine : Option Bool := none
  deriving Repr, DecidableEq

/-- Per-day sub-record `stats["today"]` of `get_default_stats`.  Keys that the
default dict does not contain but other commands may add (`tomorrow_priority`,
`open_loops`, `shutdown_time`, `sleep_quality`) are modelled as `Option`
fields that are `none` while the key is absent. -/
structure TodayStats where
  date : String
  sessions : Nat
  focusMinutes : Nat
  essentialTask : Option String
  energyReadings : List EnergyReading
  circadian : Circadian
  habitAnchor : Option String
  firstSessionTime : Option String
  identityStatement : Option String
  shutdownComplete : Bool
  tomorrowPriority : Option String
  openLoops : Option String
  shutdownTime : Option String
  sleepQuality : Option Nat
  deriving Repr, DecidableEq

/-- Stats record persisted in `stats.json` (`get_default_stats` shape).
`weekly_reviews`, `weekly_plans` and `identity_progression` are lists of
records whose contents the verified claims never inspect; they are kept as
opaque counters of appended entries.  `implementation_intentions` is a
string-keyed dict, modelled as an association list. -/
structure Stats where
  totalSessions : Nat
  totalFocusMinutes : Nat
  today : TodayStats
  weeklyReviews : Nat
  weeklyPlans : Nat
  identityProgression : Nat
  implementationIntentions : List (String × String)
  deriving Repr, DecidableEq

/-- Today sub-dict of `get_default_stats()`, with the current date `d`
standing for `str(date.today())`. -/
def defaultToday (d : String) : TodayStats :=
  { date := d
    sessions := 0
    focusMinutes := 0
    essentialTask := none
    energyReadings := []
    circadian := {}
    habitAnchor := none
    firstSessionTime := none
    identityStatement := none
    shutdownComplete := false
    tomorrowPriority := none
    openLoops := none
    shutdownTime := none
    sleepQuality := none }

/-- Default stats structure returned by `get_default_stats`. -/
def get_default_stats (d : String) : Stats :=
  { totalSessions := 0
    totalFocusMinutes := 0
    today := defaultToday d
    weeklyReviews := 0
    weeklyPlans := 0
    identityProgression := 0
    implementationIntentions := [] }

/-- Embedding of `ensure_today_stats`: when the stored `today.date` differs
from the current date `d`, `stats["today"]` is replaced by the default today
record (whose date is `d`), and then `essential_task` is set to the prior
day's `tomorrow_priority` (`yesterday.get("tomorrow_priority")`); otherwise
the stats are returned unchanged. -/
def ensure_today_stats (d : String) (stats : Stats) : Stats :=
  if stats.today.date ≠ d then
    { stats with
      today := { defaultToday d with essentialTask := stats.today.tomorrowPriority } }
  else
    stats

/-- Persisted-file state as seen by a loader: the file may be missing, may
exist but hold text that `json.load` rejects, or may hold a decoded value. -/
inductive FileState (α : Type) where
  | missing : FileState α
  | malformed : FileState α
  | content : α → FileState α
  deriving Repr, DecidableEq

/-- Embedding of `load_stats`: a missing file yields `get_default_stats()`;
an existing file is passed to `json.load`, which raises `JSONDecodeError`
(modelled as `Except.error`) on malformed contents — there is no handler. -/
def load_stats (d : String) : FileState Stats → Except String Stats
  | .missing => .ok (get_default_stats d)
  | .malformed => .error "json.decoder.JSONDecodeError"
  | .content s => .ok s

/-- Record appended to `sessions.json` by `start`.  The completed path and
the aborted path write dicts with different key sets; keys absent from a
given path are `none`. -/
structure SessionRecord where
  task : String
  goal : String
  goalAchieved : Option String
  distractions : Option Nat
  duration : Option Nat
  isEssential : Option Bool
  commitment : Option String
  resumeNote : Option String
  completed : Option Bool
  minutesCompleted : Option Nat
  reason : Option String
  timestamp : String
  deriving Repr, DecidableEq

/-- Embedding of `load_sessions`: missing file yields `[]`; malformed
contents raise `JSONDecodeError` unhandled. -/
def load_sessions : FileState (List SessionRecord) → Except String (List SessionRecord)
  | .missing => .ok []
  | .malformed => .error "json.decoder.JSONDecodeError"
  | .content xs => .ok xs

/-- Embedding of `handle_stop_request`.  The interactive `Prompt.ask` answer
is passed in as `response`.  `soft` always stops; `standard` stops when the
typed reason has at least 20 characters; `deep` stops only when the exact
commitment-breaking phrase is typed; any other commitment value stops. -/
def handle_stop_request (commitment : String) (response : String) : Bool :=
  if commitment = "soft" then true
  else if commitment = "standard" then decide (20 ≤ response.length)
  else if commitment = "deep" then
    decide (response = "I choose to break my commitment")
  else true

/-- Result dict returned by `display_session_ui`.  The Python dicts on the
four return paths carry different key sets (`reason` is absent on the
completed path; `minutes` is absent on the paused-stop path), so absent keys
are `none`. -/
structure LoopResult where
  completed : Bool
  distractions : Nat
  reason : Option String
  minutes : Option Nat
  deriving Repr, DecidableEq

/-- Mutable state of the `display_session_ui` loop: the accumulated
`pause_time` offset, the `distractions` counter, the `paused` flag, and
the `pause_start` instant (meaningful only while `paused`). -/
structure LoopState where
  pauseTime : Nat
  distractions : Nat
  paused : Bool
  pauseStart : Nat
  deriving Repr, DecidableEq

/-- One polled observation of the loop, in seconds since session start:
either the 0.1s/0.5s `select` poll found no input (`tick`), or a single
character was read (with the answer the user would give to a stop prompt),
or a `KeyboardInterrupt` fired. -/
inductive LoopEvent where
  | tick : LoopEvent
  | key : Char → String → LoopEvent
  | interrupt : LoopEvent
  deriving Repr, DecidableEq

/-- Embedding of the body of `display_session_ui`.  Each script entry
`(t, ev)` is one iteration of the `while` loop observed at wall-clock time
`t` seconds after `start_time`.  Mirrors the Python control flow:

* a `KeyboardInterrupt` at any point is caught by the surrounding `try` and
  returns `reason="interrupted"` with `minutes = int((time.time() -
  start_time) / 60)` — computed from the raw wall clock, without the
  `pause_time` offset;
* while paused, a read key first handles a confirmed stop (returning a dict
  with NO `minutes` key), and otherwise resumes, adding
  `time.time() - pause_start` to `pause_time`;
* while running, `elapsed = time.time() - start_time - pause_time`; when
  `remaining = total_seconds - elapsed ≤ 0` the loop breaks and returns the
  completed dict with `minutes = duration_minutes`; otherwise the keys
  `p` / `s` / `d` are handled and any other key is ignored.

Returns `none` when the script ends before the loop does. -/
def runLoop (commitment : String) (durationMinutes : Nat) :
    LoopState → List (Nat × LoopEvent) → Option LoopResult
  | _, [] => none
  | st, (t, ev) :: rest =>
    match ev with
    | .interrupt =>
        some { completed := false, distractions := st.distractions,
               reason := some "interrupted", minutes := some (t / 60) }
    | .tick =>
        if st.paused then
          runLoop commitment durationMinutes st rest
        else if durationMinutes * 60 ≤ t - st.pauseTime then
          some { completed := true, distractions := st.distractions,
                 reason := none, minutes := some durationMinutes }
        else
          runLoop commitment durationMinutes st rest
    | .key c resp =>
        if st.paused then
          if c = 's' ∧ handle_stop_request commitment resp then
            some { completed := false, distractions := st.distractions,
                   reason := some "stopped", minutes := none }
          else
            runLoop commitment durationMinutes
              { st with paused := false,
                        pauseTime := st.pauseTime + (t - st.pauseStart) } rest
        else
          let elapsed := t - st.pauseTime
          if durationMinutes * 60 ≤ elapsed then
            some { completed := true, distractions := st.distractions,
                   reason := none, minutes := some durationMinutes }
          else if c = 'p' then
            runLoop commitment durationMinutes
              { st with paused := true, pauseStart := t } rest
          else if c = 's' then
            if handle_stop_request commitment resp then
              some { completed := false, distractions := st.distractions,
                     reason := some "stopped", minutes := some (elapsed / 60) }
            else
              runLoop commitment durationMinutes st rest
          else if c = 'd' then
            runLoop commitment durationMinutes
              { st with distractions := st.distractions + 1 } rest
          else
            runLoop commitment durationMinutes st rest

/-- Embedding of `display_session_ui`: runs the loop from the initial state
`distractions = 0`, `paused = False`, `pause_time = 0`. -/
def display_session_ui (commitment : String) (durationMinutes : Nat)
    (script : List (Nat × LoopEvent)) : Option LoopResult :=
  runLoop commitment durationMinutes
    { pauseTime := 0, distractions := 0, paused := false, pauseStart := 0 } script

/-- Active-session dict written to `.active_session.json` by `start`. -/
structure ActiveSession where
  startTime : String
  task : String
  duration : Nat
  goal : String
  intention : String
  isEssential : Bool
  commitment : String
  deriving Repr, DecidableEq

/-- Persisted filesystem state the `start` and `status` commands touch:
the active-session marker (present iff the file exists), the decoded stats
file, and the decoded session history. -/
structure FsState where
  activeMarker : Option ActiveSession
  stats : Stats
  sessions : List SessionRecord
  deriving Repr, DecidableEq

/-- Assignment `m[k] = v` on a Python dict, over the association-list
model: replaces the value when the key is present, appends otherwise. -/
def dictInsert (m : List (String × String)) (k v : String) :
    List (String × String) :=
  if m.any (fun p => p.1 = k) then
    m.map (fun p => if p.1 = k then (k, v) else p)
  else
    m ++ [(k, v)]

/-- Embedding of the `start` command from the point where all pre-session
prompts have been answered (duration resolved, task/goal/intention
collected, essentialism confirmed): it loads stats, applies
`ensure_today_stats`, records the implementation intention, writes the
active-session marker, runs `display_session_ui`, unlinks the marker, and
then follows either the completed path (stats counters incremented,
completed record appended) or the aborted path (partial record appended,
stats saved with counters untouched).  Interactive answers that are only
read on the completed path (`goal_achieved`, `resume_note`) and the
`datetime.now()` strings are passed as parameters.  Returns `none` when the
scripted loop does not terminate (a model artifact: the real loop always
returns). -/
def start (d : String) (fs : FsState) (duration : Nat)
    (task goal intention distraction response : String) (isEssential : Bool)
    (commitment : String) (goalAchieved resumeNote : String)
    (startTime ts : String) (script : List (Nat × LoopEvent)) :
    Option FsState :=
  let stats1 := ensure_today_stats d fs.stats
  let stats2 := { stats1 with
    implementationIntentions :=
      dictInsert stats1.implementationIntentions distraction response }
  let marker : ActiveSession :=
    { startTime := startTime, task := task, duration := duration,
      goal := goal, intention := intention, isEssential := isEssential,
      commitment := commitment }
  let fsActive : FsState := { fs with activeMarker := some marker }
  match display_session_ui commitment duration script with
  | none => none
  | some result =>
    let fsDone : FsState := { fsActive with activeMarker := none }
    if result.completed then
      let sessionData : SessionRecord :=
        { task := task, goal := goal, goalAchieved := some goalAchieved,
          distractions := some result.distractions,
          duration := some duration, isEssential := some isEssential,
          commitment := some commitment, resumeNote := some resumeNote,
          completed := none, minutesCompleted := none, reason := none,
          timestamp := ts }
      let stats3 := { stats2 with
        totalSessions := stats2.totalSessions + 1,
        totalFocusMinutes := stats2.totalFocusMinutes + duration,
        today := { stats2.today with
          sessions := stats2.today.sessions + 1,
          focusMinutes := stats2.today.focusMinutes + duration } }
      some { fsDone with
              stats := stats3,
              sessions := fs.sessions ++ [sessionData] }
    else
      let elapsed := result.minutes.getD 0
      let sessionData : SessionRecord :=
        { task := task, goal := goal, goalAchieved := none,
          distractions := none, duration := none, isEssential := none,
          commitment := none, resumeNote := none, completed := some false,
          minutesCompleted := some elapsed,
          reason := some (result.reason.getD "stopped"), timestamp := ts }
      some { fsDone with
              stats := stats2,
              sessions := fs.sessions ++ [sessionData] }

/-- Embedding of the `status` command's session check: it reports
"SESSION IN PROGRESS" exactly when `ACTIVE_SESSION_FILE.exists()`. -/
def status_session_in_progress (fs : FsState) : Bool :=
  fs.activeMarker.isSome

/-- Embedding of `start`'s duration resolution (lines 394-399): a CLI
argument of 0 (the declared default) triggers `IntPrompt.ask` whose default
answer is 90; `prompted = none` models the user accepting the default. -/
def resolve_duration (cliDuration : Nat) (prompted : Option Nat) : Nat :=
  if cliDuration = 0 then prompted.getD 90 else cliDuration

/-- Modelled from the spec: the Level Resolver (`levelInfo`) of §4.3 is part
of the gamification engine that is absent from `src/` (only this spec
describes it; `src/focus/focus.py` contains no XP or level code).  Cost of
the level-up leaving level `n`: 100 XP for levels 1-5, 250 for 6-10, 400
for 11-15, 600 for 16-20, and 800 from level 21 on, indefinitely. -/
def levelCost (level : Nat) : Nat :=
  if level ≤ 5 then 100
  else if level ≤ 10 then 250
  else if level ≤ 15 then 400
  else if level ≤ 20 then 600
  else 800

/-- Modelled from the spec: title lookup of §4.3 — levels 1-5 "Apprentice",
6-10 "Focused", 11-15 "Deep Worker", 16-20 "Flow Master", 21+
"Productivity Legend". -/
def levelTitle (level : Nat) : String :=
  if level ≤ 5 then "Apprentice"
  else if level ≤ 10 then "Focused"
  else if level ≤ 15 then "Deep Worker"
  else if level ≤ 20 then "Flow Master"
  else "Productivity Legend"

/-- Modelled from the spec: resolution loop of §4.3 — starting at level 1,
repeatedly subtract the current level's level-up cost from the remaining XP
while it covers the cost, incrementing the level each time; returns the
final level and the leftover XP. -/
def levelLoop (xp level : Nat) : Nat × Nat :=
  if h : levelCost level ≤ xp then
    levelLoop (xp - levelCost level) (level + 1)
  else
    (level, xp)
  termination_by xp
  decreasing_by
    have hpos : 0 < levelCost level := by
      unfold levelCost
      repeat' split
      all_goals norm_num
    exact Nat.sub_lt (Nat.lt_of_lt_of_le hpos h) hpos

/-- Modelled from the spec: `levelInfo(cumulativeXP) -> (level, title,
xpIntoLevel, xpForNextLevel)` of §4.3. -/
def levelInfo (cumulativeXP : Nat) : Nat × String × Nat × Nat :=
  let p := levelLoop cumulativeXP 1
  (p.1, levelTitle p.1, p.2, levelCost p.1)

/-! Concrete values used by witness theorems. -/

/-- Fresh installation state: no marker, default stats, empty history. -/
def exFs : FsState :=
  { activeMarker := none, stats := get_default_stats "2026-10-12", sessions := [] }

/-- Stats persisted on a previous day, with an end-of-day capture. -/
def exStaleStats : Stats :=
  { get_default_stats "2026-10-11" with
    today := { defaultToday "2026-10-11" with
      tomorrowPriority := some "ship the report" } }

/-- Final filesystem state of a zero-length session run from `exFs` (the
single tick at t=0 already satisfies `elapsed ≥ total`). -/
def c1Final : FsState :=
  (start "2026-10-12" exFs 0 "task" "goal" "int" "mail" "note it" true "soft"
    "y" "" "t0" "t1" [(0, .tick)]).getD exFs

/-- Loop result of a completed 30-minute session observed at t=1800s. -/
def c4Result : LoopResult :=
  (display_session_ui "soft" 30 [(1800, .tick)]).getD
    { completed := false, distractions := 0, reason := none, minutes := none }

/-- Final filesystem state of a completed 30-minute session from `exFs`. -/
def c4Final : FsState :=
  (start "2026-10-12" exFs 30 "task" "goal" "int" "mail" "note it" true "soft"
    "y" "" "t0" "t1" [(1800, .tick)]).getD exFs

/-- Loop result of a completed zero-length session. -/
def c6Result : LoopResult :=
  (display_session_ui "soft" 0 [(0, .tick)]).getD
    { completed := false, distractions := 0, reason := none, minutes := none }

/-- Final filesystem state of a completed zero-length session from `exFs`. -/
def c6Final : FsState :=
  (start "2026-10-12" exFs 0 "task" "goal" "int" "mail" "note it" true "soft"
    "y" "" "t0" "t1" [(0, .tick)]).getD exFs

/-! Helper lemmas shared by the claim theorems. -/

theorem ensure_totalSessions (d : String) (s : Stats) :
    (ensure_today_stats d s).totalSessions = s.totalSessions := by
  unfold ensure_today_stats
  split <;> rfl

theorem ensure_totalFocusMinutes (d : String) (s : Stats) :
    (ensure_today_stats d s).totalFocusMinutes = s.totalFocusMinutes := by
  unfold ensure_today_stats
  split <;> rfl

/-- Every value the timer loop can return is the completed record (whose
minutes are the planned duration and which has no reason), a stop record,
or an interrupt record. -/
theorem runLoop_classify (c : String) (dm : Nat) :
    ∀ (script : List (Nat × LoopEvent)) (st : LoopState) (r : LoopResult),
      runLoop c dm st script = some r →
      (r.completed = true ∧ r.minutes = some dm ∧ r.reason = none) ∨
      (r.completed = false ∧ r.reason = some "stopped") ∨
      (r.completed = false ∧ r.reason = some "interrupted") := by
  intro script
  induction script with
  | nil =>
    intro st r h
    simp [runLoop] at h
  | cons head rest ih =>
    obtain ⟨t, ev⟩ := head
    intro st r h
    cases ev with
    | interrupt =>
      simp only [runLoop] at h
      injection h with h
      subst h
      simp
    | tick =>
      simp only [runLoop] at h
      split_ifs at h with h1 h2
      · exact ih st r h
      · injection h with h
        subst h
        simp
      · exact ih st r h
    | key ch resp =>
      simp only [runLoop] at h
      split_ifs at h
      all_goals
        first
          | (exact ih _ r h)
          | (injection h with h
             subst h
             simp)

/-! Claim theorems. -/

/-- C5: when the stored `today.date` differs from the current date, the next
`ensure_today_stats` resets the today sub-record to its defaults for the
current date except that the prior day's `tomorrow_priority` becomes
`essential_task`; when the dates agree, the stats are returned unchanged. -/
theorem ensure_today_stats_rollover (s : Stats) (d : String) :
    (s.today.date ≠ d →
      ensure_today_stats d s =
        { s with today := { defaultToday d with
            essentialTask := s.today.tomorrowPriority } }) ∧
    (s.today.date = d → ensure_today_stats d s = s) := by
  constructor
  · intro h
    unfold ensure_today_stats
    rw [if_pos h]
  · intro h
    unfold ensure_today_stats
    rw [if_neg (not_not_intro h)]

/-- Witness for C5: a stale stats record from 2026-10-11 with a captured
tomorrow-priority is rolled over on 2026-10-12, and a current record is
untouched. -/
theorem ensure_today_stats_rollover_witness :
    exStaleStats.today.date ≠ "2026-10-12" ∧
    ensure_today_stats "2026-10-12" exStaleStats =
      { exStaleStats with today := { defaultToday "2026-10-12" with
          essentialTask := some "ship the report" } } ∧
    (get_default_stats "2026-10-12").today.date = "2026-10-12" ∧
    ensure_today_stats "2026-10-12" (get_default_stats "2026-10-12") =
      get_default_stats "2026-10-12" := by
  refine ⟨by decide, ?_, rfl, ?_⟩
  · exact (ensure_today_stats_rollover exStaleStats "2026-10-12").1 (by decide)
  · exact (ensure_today_stats_rollover (get_default_stats "2026-10-12")
      "2026-10-12").2 rfl

/-- C10: `ensure_today_stats` is idempotent for a fixed current date — the
first application leaves `today.date` equal to the current date, so the
second changes nothing. -/
theorem ensure_today_stats_idempotent (d : String) (s : Stats) :
    ensure_today_stats d (ensure_today_stats d s) = ensure_today_stats d s := by
  by_cases h : s.today.date = d
  · simp [ensure_today_stats, h]
  · simp [ensure_today_stats, defaultToday, h]

/-- C7 counterexample: a present-but-malformed stats or history file is not
treated as a first run — `json.load` raises an unhandled decode error
instead of substituting defaults, so the load fails fatally. -/
theorem load_malformed_fatal :
    load_stats "2026-10-12" FileState.malformed =
      Except.error "json.decoder.JSONDecodeError" ∧
    load_stats "2026-10-12" FileState.malformed ≠
      Except.ok (get_default_stats "2026-10-12") ∧
    load_sessions FileState.malformed =
      Except.error "json.decoder.JSONDecodeError" := by
  refine ⟨rfl, ?_, rfl⟩
  simp [load_stats]

/-- C7 amended: a missing stats or history file is treated as a first run
(documented defaults substituted, no failure); a well-formed file is
returned as decoded; a malformed file raises an unhandled JSON decode
error. -/
theorem load_defaults_amended (d : String) :
    load_stats d FileState.missing = Except.ok (get_default_stats d) ∧
    load_sessions FileState.missing = Except.ok [] ∧
    (∀ s, load_stats d (FileState.content s) = Except.ok s) ∧
    (∀ xs, load_sessions (FileState.content xs) = Except.ok xs) ∧
    load_stats d FileState.malformed =
      Except.error "json.decoder.JSONDecodeError" ∧
    load_sessions FileState.malformed =
      Except.error "json.decoder.JSONDecodeError" :=
  ⟨rfl, rfl, fun _ => rfl, fun _ => rfl, rfl, rfl⟩

/-- C8: `levelInfo(0) = (1, "Apprentice", 0, 100)`, and the XP cost of every
level-up follows the tiered schedule — 100 XP per level-up within levels
1-6, then 250 (6-11), 400 (11-16), 600 (16-21), and 800 from level 21 on
indefinitely; `levelInfo` always reports the schedule cost of the level it
resolves as `xpForNextLevel`. -/
theorem levelInfo_contract :
    levelInfo 0 = (1, "Apprentice", 0, 100) ∧
    (∀ xp, (levelInfo xp).2.2.2 = levelCost (levelInfo xp).1) ∧
    (∀ n, 1 ≤ n → n ≤ 5 → levelCost n = 100) ∧
    (∀ n, 6 ≤ n → n ≤ 10 → levelCost n = 250) ∧
    (∀ n, 11 ≤ n → n ≤ 15 → levelCost n = 400) ∧
    (∀ n, 16 ≤ n → n ≤ 20 → levelCost n = 600) ∧
    (∀ n, 21 ≤ n → levelCost n = 800) ∧
    levelInfo 500 = (6, "Focused", 0, 250) := by
  refine ⟨?_, fun xp => rfl, ?_, ?_, ?_, ?_, ?_, ?_⟩
  · simp [levelInfo, levelLoop, levelCost, levelTitle]
  · intro n h1 h2
    unfold levelCost
    rw [if_pos h2]
  · intro n h1 h2
    unfold levelCost
    rw [if_neg (by omega), if_pos h2]
  · intro n h1 h2
    unfold levelCost
    rw [if_neg (by omega), if_neg (by omega), if_pos h2]
  · intro n h1 h2
    unfold levelCost
    rw [if_neg (by omega), if_neg (by omega), if_neg (by omega), if_pos h2]
  · intro n h1
    unfold levelCost
    rw [if_neg (by omega), if_neg (by omega), if_neg (by omega),
        if_neg (by omega)]
  · simp [levelInfo, levelLoop, levelCost, levelTitle]

/-- Witness for C8: the schedule evaluated at one level of each tier, plus
the two concrete resolutions. -/
theorem levelInfo_contract_witness :
    levelInfo 0 = (1, "Apprentice", 0, 100) ∧
    levelCost 3 = 100 ∧ levelCost 7 = 250 ∧ levelCost 12 = 400 ∧
    levelCost 18 = 600 ∧ levelCost 25 = 800 ∧
    levelInfo 500 = (6, "Focused", 0, 250) :=
  ⟨levelInfo_contract.1,
   levelInfo_contract.2.2.1 3 (by norm_num) (by norm_num),
   levelInfo_contract.2.2.2.1 7 (by norm_num) (by norm_num),
   levelInfo_contract.2.2.2.2.1 12 (by norm_num) (by norm_num),
   levelInfo_contract.2.2.2.2.2.1 18 (by norm_num) (by norm_num),
   levelInfo_contract.2.2.2.2.2.2.1 25 (by norm_num),
   levelInfo_contract.2.2.2.2.2.2.2⟩

/-- C9 counterexample: when the CLI duration argument is 0 (its declared
default, meaning the user supplied none) and the user accepts the prompt's
default answer, the duration offered is 90 minutes, not 20. -/
theorem default_duration_not_twenty :
    resolve_duration 0 none = 90 ∧ resolve_duration 0 none ≠ 20 := by
  decide

/-- C9 amended: starting without a duration prompts with a default of 90
minutes (the config has no `session.default_duration` key); an explicit
prompt answer or a non-zero CLI argument is used as given. -/
theorem resolve_duration_defaults :
    resolve_duration 0 none = 90 ∧
    (∀ k, resolve_duration 0 (some k) = k) ∧
    (∀ n, n ≠ 0 → ∀ p, resolve_duration n p = n) := by
  refine ⟨rfl, fun k => rfl, fun n hn p => ?_⟩
  unfold resolve_duration
  rw [if_neg hn]

/-- Witness for C9 amended: the prompt default and a supplied 25-minute CLI
argument. -/
theorem resolve_duration_defaults_witness :
    resolve_duration 0 none = 90 ∧ resolve_duration 25 none = 25 :=
  ⟨resolve_duration_defaults.1,
   resolve_duration_defaults.2.2 25 (by norm_num) none⟩

/-- C1: every run of `start` that reaches the session (and hence writes the
ActiveSessionMarker) removes the marker before returning, on every outcome
the timer loop can produce — completion, stop, or interrupt — and a status
query on the resulting state reports no session in progress. -/
theorem start_clears_marker (d : String) (fs : FsState) (duration : Nat)
    (task goal intention distraction response : String) (isEssential : Bool)
    (commitment goalAchieved resumeNote startTime ts : String)
    (script : List (Nat × LoopEvent)) (fs' : FsState)
    (hstart : start d fs duration task goal intention distraction response
      isEssential commitment goalAchieved resumeNote startTime ts script =
      some fs') :
    fs'.activeMarker = none ∧ status_session_in_progress fs' = false ∧
    ∀ r, display_session_ui commitment duration script = some r →
      r.completed = true ∨ r.reason = some "stopped" ∨
        r.reason = some "interrupted" := by
  unfold start at hstart
  cases hdisp : display_session_ui commitment duration script with
  | none =>
    rw [hdisp] at hstart
    simp at hstart
  | some r =>
    rw [hdisp] at hstart
    dsimp only at hstart
    split_ifs at hstart with hc
    all_goals
      injection hstart with h
      subst h
      refine ⟨rfl, rfl, ?_⟩
      intro r' hr'
      injection hr' with hr2
      subst hr2
      rcases runLoop_classify commitment duration script
        { pauseTime := 0, distractions := 0, paused := false, pauseStart := 0 }
        _ hdisp with h1 | h2 | h3
      · exact Or.inl h1.1
      · exact Or.inr (Or.inl h2.2)
      · exact Or.inr (Or.inr h3.2)

/-- Witness for C1: a completed run from a fresh installation ends with the
marker absent and the status query reporting no active session. -/
theorem start_clears_marker_witness :
    start "2026-10-12" exFs 0 "task" "goal" "int" "mail" "note it" true "soft"
      "y" "" "t0" "t1" [(0, .tick)] = some c1Final ∧
    c1Final.activeMarker = none ∧
    status_session_in_progress c1Final = false := by
  have h : start "2026-10-12" exFs 0 "task" "goal" "int" "mail" "note it"
      true "soft" "y" "" "t0" "t1" [(0, .tick)] = some c1Final := rfl
  exact ⟨h, (start_clears_marker _ _ _ _ _ _ _ _ _ _ _ _ _ _ _ _ h).1,
    (start_clears_marker _ _ _ _ _ _ _ _ _ _ _ _ _ _ _ _ h).2.1⟩

/-- C2 (failing input): pressing the stop key while PAUSED returns the dict
`{"completed": False, "distractions": ..., "reason": "stopped"}` with no
`minutes` key at all (unlike the running-state stop), so the elapsed time
is not recorded and the aborted-path `result.get("minutes", 0)` persists
`minutes_completed = 0`.  Here the user runs 70 s, pauses, and stops at
t=75 s with soft commitment: the claim requires `minutes = 1` (floor of
the 70 s of unpaused elapsed time), but the result carries no minutes. -/
theorem stop_while_paused_omits_minutes :
    display_session_ui "soft" 5 [(70, .key 'p' ""), (75, .key 's' "")] =
      some { completed := false, distractions := 0, reason := some "stopped",
             minutes := none } ∧
    ((start "2026-10-12" exFs 5 "task" "goal" "int" "mail" "note it" true
        "soft" "y" "" "t0" "t1"
        [(70, .key 'p' ""), (75, .key 's' "")]).getD
      exFs).sessions.getLast?.bind SessionRecord.minutesCompleted =
      some 0 :=
  ⟨rfl, rfl⟩

/-- C3 counterexample: with a pause from t=10 s to t=100 s (pause offset 90
s) and a keyboard interrupt at t=130 s, the interrupted result reports
`minutes = int((time.time() - start_time) / 60) = 2`, but excluding paused
time the elapsed is 40 s, whose floor is 0 — the interrupted result does
NOT exclude time spent paused. -/
theorem interrupted_minutes_include_pause :
    display_session_ui "soft" 5
      [(10, .key 'p' ""), (100, .key 'x' ""), (130, .interrupt)] =
      some { completed := false, distractions := 0,
             reason := some "interrupted", minutes := some 2 } ∧
    some 2 ≠ some ((130 - 90) / 60 : Nat) :=
  ⟨rfl, by decide⟩

/-- C3 amended: resuming from a pause accumulates the paused duration into
the pause offset, and that offset is subtracted from the elapsed time used
by the countdown and by the running-state stop result; the interrupted
result, however, floors the raw wall-clock time since start without
subtracting the pause offset. -/
theorem pause_offset_accounting :
    (∀ (c : String) (dm : Nat) (st : LoopState) (t : Nat)
        (rest : List (Nat × LoopEvent)),
      runLoop c dm st ((t, .interrupt) :: rest) =
        some { completed := false, distractions := st.distractions,
               reason := some "interrupted", minutes := some (t / 60) }) ∧
    (∀ (c : String) (dm : Nat) (st : LoopState) (t : Nat) (resp : String)
        (rest : List (Nat × LoopEvent)),
      st.paused = false → t - st.pauseTime < dm * 60 →
      handle_stop_request c resp = true →
      runLoop c dm st ((t, .key 's' resp) :: rest) =
        some { completed := false, distractions := st.distractions,
               reason := some "stopped",
               minutes := some ((t - st.pauseTime) / 60) }) ∧
    (∀ (c : String) (dm : Nat) (st : LoopState) (t : Nat) (ch : Char)
        (resp : String) (rest : List (Nat × LoopEvent)),
      st.paused = true →
      ¬(ch = 's' ∧ handle_stop_request c resp = true) →
      runLoop c dm st ((t, .key ch resp) :: rest) =
        runLoop c dm
          { st with paused := false,
                    pauseTime := st.pauseTime + (t - st.pauseStart) } rest) := by
  refine ⟨fun c dm st t rest => rfl, ?_, ?_⟩
  · intro c dm st t resp rest hp hlt hstop
    simp only [runLoop]
    simp [hp, Nat.not_le.mpr hlt, hstop]
  · intro c dm st t ch resp rest hp hnot
    simp only [runLoop]
    simp [hp, hnot]

/-- Witness for C3 amended: an interrupt at t=130 s floors the raw wall
clock (2 minutes); a running stop at t=130 s with a 90 s pause offset
floors the pause-adjusted 40 s (0 minutes); a resume at t=100 s after a
pause begun at t=10 s adds 90 s to the offset. -/
theorem pause_offset_accounting_witness :
    runLoop "soft" 5
      { pauseTime := 0, distractions := 0, paused := false, pauseStart := 0 }
      [(130, .interrupt)] =
      some { completed := false, distractions := 0,
             reason := some "interrupted", minutes := some 2 } ∧
    runLoop "soft" 5
      { pauseTime := 90, distractions := 0, paused := false, pauseStart := 0 }
      [(130, .key 's' "")] =
      some { completed := false, distractions := 0,
             reason := some "stopped", minutes := some 0 } ∧
    runLoop "soft" 5
      { pauseTime := 0, distractions := 0, paused := true, pauseStart := 10 }
      [(100, .key 'x' ""), (130, .interrupt)] =
      runLoop "soft" 5
        { pauseTime := 90, distractions := 0, paused := false,
          pauseStart := 10 } [(130, .interrupt)] := by
  refine ⟨?_, ?_, ?_⟩
  · simpa using pause_offset_accounting.1 "soft" 5
      { pauseTime := 0, distractions := 0, paused := false, pauseStart := 0 }
      130 []
  · simpa using pause_offset_accounting.2.1 "soft" 5
      { pauseTime := 90, distractions := 0, paused := false, pauseStart := 0 }
      130 "" [] rfl (by norm_num) rfl
  · simpa using pause_offset_accounting.2.2 "soft" 5
      { pauseTime := 0, distractions := 0, paused := true, pauseStart := 10 }
      100 'x' "" [(130, .interrupt)] rfl (by decide)

/-- C4: the stats written by `start` gain exactly one session and the
planned duration of focus minutes (both in the cumulative totals and in
today's counters) precisely when the loop result is completed; on the
aborted path the saved stats carry the loaded totals and the
post-rollover today counters unchanged. -/
theorem start_stats_accounting (d : String) (fs : FsState) (duration : Nat)
    (task goal intention distraction response : String) (isEssential : Bool)
    (commitment goalAchieved resumeNote startTime ts : String)
    (script : List (Nat × LoopEvent)) (r : LoopResult) (fs' : FsState)
    (hdisp : display_session_ui commitment duration script = some r)
    (hstart : start d fs duration task goal intention distraction response
      isEssential commitment goalAchieved resumeNote startTime ts script =
      some fs') :
    (r.completed = true →
      fs'.stats.totalSessions = fs.stats.totalSessions + 1 ∧
      fs'.stats.totalFocusMinutes = fs.stats.totalFocusMinutes + duration ∧
      fs'.stats.today.sessions =
        (ensure_today_stats d fs.stats).today.sessions + 1 ∧
      fs'.stats.today.focusMinutes =
        (ensure_today_stats d fs.stats).today.focusMinutes + duration) ∧
    (r.completed = false →
      fs'.stats.totalSessions = fs.stats.totalSessions ∧
      fs'.stats.totalFocusMinutes = fs.stats.totalFocusMinutes ∧
      fs'.stats.today.sessions =
        (ensure_today_stats d fs.stats).today.sessions ∧
      fs'.stats.today.focusMinutes =
        (ensure_today_stats d fs.stats).today.focusMinutes) := by
  unfold start at hstart
  rw [hdisp] at hstart
  dsimp only at hstart
  split_ifs at hstart with hc
  · injection hstart with h
    subst h
    refine ⟨fun _ => ⟨?_, ?_, rfl, rfl⟩, fun hf => by simp [hf] at hc⟩
    · show (ensure_today_stats d fs.stats).totalSessions + 1 =
        fs.stats.totalSessions + 1
      rw [ensure_totalSessions]
    · show (ensure_today_stats d fs.stats).totalFocusMinutes + duration =
        fs.stats.totalFocusMinutes + duration
      rw [ensure_totalFocusMinutes]
  · injection hstart with h
    subst h
    refine ⟨fun ht => absurd ht hc, fun _ => ⟨?_, ?_, rfl, rfl⟩⟩
    · show (ensure_today_stats d fs.stats).totalSessions =
        fs.stats.totalSessions
      rw [ensure_totalSessions]
    · show (ensure_today_stats d fs.stats).totalFocusMinutes =
        fs.stats.totalFocusMinutes
      rw [ensure_totalFocusMinutes]

/-- Witness for C4: a completed 30-minute session from a fresh installation
raises the totals by one session and 30 minutes. -/
theorem start_stats_accounting_witness :
    display_session_ui "soft" 30 [(1800, .tick)] = some c4Result ∧
    c4Result.completed = true ∧
    start "2026-10-12" exFs 30 "task" "goal" "int" "mail" "note it" true
      "soft" "y" "" "t0" "t1" [(1800, .tick)] = some c4Final ∧
    c4Final.stats.totalSessions = exFs.stats.totalSessions + 1 ∧
    c4Final.stats.totalFocusMinutes = exFs.stats.totalFocusMinutes + 30 := by
  have hd : display_session_ui "soft" 30 [(1800, .tick)] = some c4Result := rfl
  have hs : start "2026-10-12" exFs 30 "task" "goal" "int" "mail" "note it"
      true "soft" "y" "" "t0" "t1" [(1800, .tick)] = some c4Final := rfl
  have h := start_stats_accounting "2026-10-12" exFs 30 "task" "goal" "int"
    "mail" "note it" true "soft" "y" "" "t0" "t1" [(1800, .tick)]
    c4Result c4Final hd hs
  exact ⟨hd, rfl, hs, (h.1 rfl).1, (h.1 rfl).2.1⟩

/-- C6: a loop result with `completed = true` (natural expiry) carries
`minutes` equal to the planned duration — not the wall-clock elapsed time —
and the SessionRecord that `start` appends on that path has its `duration`
field equal to the planned duration. -/
theorem completed_session_duration (d : String) (fs : FsState)
    (duration : Nat) (task goal intention distraction response : String)
    (isEssential : Bool)
    (commitment goalAchieved resumeNote startTime ts : String)
    (script : List (Nat × LoopEvent)) (r : LoopResult) (fs' : FsState)
    (hdisp : display_session_ui commitment duration script = some r)
    (hc : r.completed = true)
    (hstart : start d fs duration task goal intention distraction response
      isEssential commitment goalAchieved resumeNote startTime ts script =
      some fs') :
    r.minutes = some duration ∧
    fs'.sessions.getLast?.bind SessionRecord.duration = some duration := by
  constructor
  · have hr : runLoop commitment duration
        { pauseTime := 0, distractions := 0, paused := false,
          pauseStart := 0 } script = some r := by
      simpa [display_session_ui] using hdisp
    rcases runLoop_classify commitment duration script _ r hr
      with h1 | h2 | h3
    · exact h1.2.1
    · simp [h2.1] at hc
    · simp [h3.1] at hc
  · unfold start at hstart
    rw [hdisp] at hstart
    dsimp only at hstart
    rw [if_pos hc] at hstart
    injection hstart with h
    subst h
    show (fs.sessions ++ [_]).getLast?.bind SessionRecord.duration =
      some duration
    rw [List.getLast?_concat]
    rfl

/-- Witness for C6: a completed zero-length session — the loop result and
the appended record both carry the planned duration 0. -/
theorem completed_session_duration_witness :
    display_session_ui "soft" 0 [(0, .tick)] = some c6Result ∧
    c6Result.completed = true ∧
    start "2026-10-12" exFs 0 "task" "goal" "int" "mail" "note it" true
      "soft" "y" "" "t0" "t1" [(0, .tick)] = some c6Final ∧
    c6Result.minutes = some 0 ∧
    c6Final.sessions.getLast?.bind SessionRecord.duration = some 0 := by
  have hd : display_session_ui "soft" 0 [(0, .tick)] = some c6Result := rfl
  have hs : start "2026-10-12" exFs 0 "task" "goal" "int" "mail" "note it"
      true "soft" "y" "" "t0" "t1" [(0, .tick)] = some c6Final := rfl
  have h := completed_session_duration "2026-10-12" exFs 0 "task" "goal"
    "int" "mail" "note it" true "soft" "y" "" "t0" "t1" [(0, .tick)]
    c6Result c6Final hd rfl hs
  exact ⟨hd, rfl, hs, h.1, h.2⟩

end Focus
